import Mathlib

/-!
# Verification of `Source/SceneManager.cpp`

A shallow embedding of the scene-composition module of the
3D-Rendering-of-Wedding-Overlay repository, together with theorems that settle
the frozen claims about it.

Modelling conventions:
* C++ `float` arithmetic is idealised as real arithmetic (`ℝ`); the glm matrix
  helpers are translated entry-by-entry from the glm sources in mathematical
  (row, column) convention, so the glm `operator*` on `mat4` is ordinary matrix
  multiplication.
* The `ShaderManager` pointed to by `m_pShaderManager` is modelled as a store
  of named uniforms (`String → Option UniformValue`); each `set...Value` call
  updates the store and appends a `setUniform` event to the event trace.
* The OpenGL context is modelled by the observables the claims need: the
  counter behind `glGenTextures`, the names passed to `glDeleteTextures`, the
  active texture unit, and the sequence of `glBindTexture` calls.
* The texture table `m_textureIDs` (a fixed-size C array) is modelled as a
  total function `ℕ → TEXTURE_ID`; the *unchecked* array writes of the source
  go through `writeTextureID`, which returns `none` for an index at or past
  the table capacity — an out-of-bounds write, i.e. undefined behaviour.
  Functions that can reach such a write are therefore `Option`-valued.
* `std::cout` output is modelled as a list of log lines, and all externally
  observable calls (texture creation, `push_back` on the material list,
  uniform uploads, mesh loads) are recorded, in program order, in an event
  trace `events`.
-/

namespace SceneMgr

/-- A 3-component float vector (`glm::vec3`), with real components. -/
structure Vec3 where
  x : ℝ
  y : ℝ
  z : ℝ

/-- A 4x4 float matrix (`glm::mat4`), in mathematical (row, column) indexing. -/
abbrev Mat4 := Matrix (Fin 4) (Fin 4) ℝ

/-- One entry of the `m_textureIDs` table: an OpenGL texture name (`GLuint`)
and the tag string it was registered under. -/
structure TEXTURE_ID where
  ID : ℕ
  tag : String

/-- `OBJECT_MATERIAL`: diffuse color, specular color, shininess exponent and
lookup tag, as used by `DefineObjectMaterials` / `FindMaterial`. -/
structure OBJECT_MATERIAL where
  diffuseColor : Vec3
  specularColor : Vec3
  shininess : ℝ
  tag : String

/-- The kinds of basic meshes the `ShapeMeshes` library can load. -/
inductive MeshKind where
  | box | plane | cylinder | cone | sphere | torus
  | pyramid4 | prism | hexagon | taperedCylinder
deriving DecidableEq, Repr, Fintype

/-- Externally observable calls made by the scene manager, in program order. -/
inductive Event where
  | createTexture (filename : String) (tag : String)
  | pushMaterial (tag : String)
  | setUniform (uniformName : String)
  | loadMesh (mesh : MeshKind)
deriving DecidableEq, Repr

/-- A value uploaded to a named shader uniform. -/
inductive UniformValue where
  | mat4V (m : Mat4)
  | vec2V (u v : ℝ)
  | vec3V (v : Vec3)
  | vec4V (r g b a : ℝ)
  | intV (n : ℤ)
  | boolV (b : Bool)
  | floatV (x : ℝ)
  | sampler2DV (n : ℤ)

/-- The uniform store of the external `ShaderManager` object. -/
structure ShaderState where
  uniforms : String → Option UniformValue

/-- The observables of the OpenGL context that the claims mention:
`nextTextureName` is the next fresh name `glGenTextures` hands out,
`deleted` records every name passed to `glDeleteTextures`,
`activeUnit` is the unit selected by `glActiveTexture`, and
`binds` records each `glBindTexture` call as (active unit, texture name). -/
structure GLState where
  nextTextureName : ℕ
  deleted : List ℕ
  activeUnit : ℕ
  binds : List (ℕ × ℕ)

/-- The fields of the `SceneManager` object itself (from `SceneManager.h`):
the shader-manager pointer (modelled by its null-ness), the fixed-size
texture table with its fill count, and the material list. -/
structure SMFields where
  hasShaderManager : Bool
  textureIDs : ℕ → TEXTURE_ID
  loadedTextures : ℕ
  objectMaterials : List OBJECT_MATERIAL

/-- The whole program state: the `SceneManager` fields, the pointed-to shader
store, the GL context, the `std::cout` log, and the event trace. -/
structure State where
  sm : SMFields
  shader : ShaderState
  gl : GLState
  log : List String
  events : List Event

/-- Modelled from the spec: the capacity of the texture table.  The array
declaration `m_textureIDs[16]` lives in `SceneManager.h`, which is not part of
the sources; the source comments ("There are up to 16 slots", "there are a
total of 16 available slots for scene textures") and the spec fix it at 16. -/
def textureTableCapacity : ℕ := 16

/-- An unchecked C write `m_textureIDs[i] = e`.  For `i` at or past the table
capacity this is a write past the end of the array — undefined behaviour —
modelled as `none`. -/
def writeTextureID (a : ℕ → TEXTURE_ID) (i : ℕ) (e : TEXTURE_ID) :
    Option (ℕ → TEXTURE_ID) :=
  if i < textureTableCapacity then some (Function.update a i e) else none

/-- `glGenTextures(1, &name)`: hands out the next fresh texture name. -/
def glGenTextures (gl : GLState) : ℕ × GLState :=
  (gl.nextTextureName, { gl with nextTextureName := gl.nextTextureName + 1 })

/-- `glDeleteTextures(1, &name)`: records the deleted name.  The source never
calls this (see `DestroyGLTextures`), but it is the GL operation that would
actually free a texture. -/
def glDeleteTextures (name : ℕ) (gl : GLState) : GLState :=
  { gl with deleted := gl.deleted ++ [name] }

/-- `glActiveTexture(GL_TEXTURE0 + u)`. -/
def glActiveTexture (u : ℕ) (gl : GLState) : GLState :=
  { gl with activeUnit := u }

/-- `glBindTexture(GL_TEXTURE_2D, name)` on the current active unit. -/
def glBindTexture (name : ℕ) (gl : GLState) : GLState :=
  { gl with binds := gl.binds ++ [(gl.activeUnit, name)] }

/-- A `std::cout` line. -/
def logLine (s : String) (st : State) : State :=
  { st with log := st.log ++ [s] }

/-- Result of `stbi_load`: `none` when decoding fails, otherwise the image's
width, height and channel count (C++ `int`s). -/
structure ImageData where
  width : ℤ
  height : ℤ
  channels : ℤ

/-- A shader uniform upload: updates the store and records the event. -/
def setUniform (uniformName : String) (v : UniformValue) (st : State) : State :=
  { st with
      shader := ⟨Function.update st.shader.uniforms uniformName (some v)⟩,
      events := st.events ++ [Event.setUniform uniformName] }

/-- `ShaderManager::setMat4Value`. -/
def setMat4Value (uniformName : String) (m : Mat4) (st : State) : State :=
  setUniform uniformName (UniformValue.mat4V m) st

/-- `ShaderManager::setVec2Value`. -/
def setVec2Value (uniformName : String) (u v : ℝ) (st : State) : State :=
  setUniform uniformName (UniformValue.vec2V u v) st

/-- `ShaderManager::setVec3Value`. -/
def setVec3Value (uniformName : String) (v : Vec3) (st : State) : State :=
  setUniform uniformName (UniformValue.vec3V v) st

/-- `ShaderManager::setVec4Value`. -/
def setVec4Value (uniformName : String) (r g b a : ℝ) (st : State) : State :=
  setUniform uniformName (UniformValue.vec4V r g b a) st

/-- `ShaderManager::setIntValue` (call sites pass C++ `bool`s, which convert
to `0` / `1`). -/
def setIntValue (uniformName : String) (n : ℤ) (st : State) : State :=
  setUniform uniformName (UniformValue.intV n) st

/-- `ShaderManager::setBoolValue`. -/
def setBoolValue (uniformName : String) (b : Bool) (st : State) : State :=
  setUniform uniformName (UniformValue.boolV b) st

/-- `ShaderManager::setFloatValue`. -/
def setFloatValue (uniformName : String) (x : ℝ) (st : State) : State :=
  setUniform uniformName (UniformValue.floatV x) st

/-- `ShaderManager::setSampler2DValue`. -/
def setSampler2DValue (uniformName : String) (n : ℤ) (st : State) : State :=
  setUniform uniformName (UniformValue.sampler2DV n) st

/-- The file-scope constant `g_ModelName`. -/
def g_ModelName : String := "model"

/-- The file-scope constant `g_ColorValueName`. -/
def g_ColorValueName : String := "objectColor"

/-- The file-scope constant `g_TextureValueName`. -/
def g_TextureValueName : String := "objectTexture"

/-- The file-scope constant `g_UseTextureName`. -/
def g_UseTextureName : String := "bUseTexture"

/-- The file-scope constant `g_UseLightingName`. -/
def g_UseLightingName : String := "bUseLighting"

/-- `SceneManager::CreateGLTexture(filename, tag)`.

`stbiLoad` models the image decoder (`stbi_load` applied to a filename); the
`createTexture` event records the call itself.  On a successful decode the
source generates and configures a GL texture, uploads the pixels for 3- or
4-channel images (rejecting other channel counts), and then registers the
texture by the unchecked writes `m_textureIDs[m_loadedTextures].ID = ...`,
`m_textureIDs[m_loadedTextures].tag = ...` followed by `m_loadedTextures++`.
The GL texture-parameter / `glTexImage2D` / mipmap calls configure the bound
texture object and have no observable modelled beyond the bind trace. -/
def CreateGLTexture (stbiLoad : String → Option ImageData)
    (filename : String) (tag : String) (st : State) : Option (Bool × State) :=
  let st := { st with events := st.events ++ [Event.createTexture filename tag] }
  match stbiLoad filename with
  | some image =>
      let st := logLine ("Successfully loaded image:" ++ filename ++
        ", width:" ++ toString image.width ++ ", height:" ++
        toString image.height ++ ", channels:" ++ toString image.channels) st
      let gen := glGenTextures st.gl
      let textureID := gen.1
      let st := { st with gl := glBindTexture textureID gen.2 }
      if image.channels = 3 ∨ image.channels = 4 then
        let st := { st with gl := glBindTexture 0 st.gl }
        match writeTextureID st.sm.textureIDs st.sm.loadedTextures
            { ID := textureID, tag := tag } with
        | some table =>
            some (true, { st with sm := { st.sm with
              textureIDs := table,
              loadedTextures := st.sm.loadedTextures + 1 } })
        | none => none
      else
        some (false, logLine ("Not implemented to handle image with " ++
          toString image.channels ++ " channels") st)
  | none =>
      some (false, logLine ("Could not load image:" ++ filename) st)

/-- The loop body of `SceneManager::BindGLTextures`: for each loaded slot `i`,
`glActiveTexture(GL_TEXTURE0 + i)` then `glBindTexture` of the stored name. -/
def bindGLTexturesLoop (table : ℕ → TEXTURE_ID) (n : ℕ) (i : ℕ)
    (gl : GLState) : GLState :=
  if i < n then
    bindGLTexturesLoop table n (i + 1)
      (glBindTexture (table i).ID (glActiveTexture i gl))
  else gl
termination_by n - i
decreasing_by omega

/-- `SceneManager::BindGLTextures`. -/
def BindGLTextures (st : State) : State :=
  { st with gl := bindGLTexturesLoop st.sm.textureIDs st.sm.loadedTextures 0 st.gl }

/-- The loop of `SceneManager::DestroyGLTextures`: for each loaded slot `i` it
calls `glGenTextures(1, &m_textureIDs[i].ID)` — overwriting the stored name
with a freshly generated one via an unchecked array write. -/
def destroyGLTexturesLoop (n : ℕ) (i : ℕ) (table : ℕ → TEXTURE_ID)
    (gl : GLState) : Option ((ℕ → TEXTURE_ID) × GLState) :=
  if i < n then
    let gen := glGenTextures gl
    match writeTextureID table i { ID := gen.1, tag := (table i).tag } with
    | some table' => destroyGLTexturesLoop n (i + 1) table' gen.2
    | none => none
  else some (table, gl)
termination_by n - i
decreasing_by omega

/-- `SceneManager::DestroyGLTextures`. -/
def DestroyGLTextures (st : State) : Option State :=
  match destroyGLTexturesLoop st.sm.loadedTextures 0 st.sm.textureIDs st.gl with
  | some tg =>
      some { st with sm := { st.sm with textureIDs := tg.1 }, gl := tg.2 }
  | none => none

/-- The `while ((index < m_loadedTextures) && (bFound == false))` loop of
`SceneManager::FindTextureID`: first matching tag wins, result `-1` if none. -/
def findTextureIDLoop (table : ℕ → TEXTURE_ID) (n : ℕ) (tag : String)
    (index : ℕ) : ℤ :=
  if index < n then
    if (table index).tag = tag then Int.ofNat (table index).ID
    else findTextureIDLoop table n tag (index + 1)
  else -1
termination_by n - index
decreasing_by omega

/-- `SceneManager::FindTextureID`. -/
def FindTextureID (sm : SMFields) (tag : String) : ℤ :=
  findTextureIDLoop sm.textureIDs sm.loadedTextures tag 0

/-- The scan loop of `SceneManager::FindTextureSlot`: like `FindTextureID`
but returning the slot index. -/
def findTextureSlotLoop (table : ℕ → TEXTURE_ID) (n : ℕ) (tag : String)
    (index : ℕ) : ℤ :=
  if index < n then
    if (table index).tag = tag then Int.ofNat index
    else findTextureSlotLoop table n tag (index + 1)
  else -1
termination_by n - index
decreasing_by omega

/-- `SceneManager::FindTextureSlot`. -/
def FindTextureSlot (sm : SMFields) (tag : String) : ℤ :=
  findTextureSlotLoop sm.textureIDs sm.loadedTextures tag 0

/-- The scan loop of `SceneManager::FindMaterial`: at the first entry whose
tag matches, the diffuse color, specular color and shininess (but not the
tag) are copied into the out-parameter `material`. -/
def findMaterialLoop (mats : List OBJECT_MATERIAL) (tag : String)
    (material : OBJECT_MATERIAL) (index : ℕ) : OBJECT_MATERIAL :=
  if h : index < mats.length then
    let m := mats[index]
    if m.tag = tag then
      { material with
          diffuseColor := m.diffuseColor,
          specularColor := m.specularColor,
          shininess := m.shininess }
    else findMaterialLoop mats tag material (index + 1)
  else material
termination_by mats.length - index
decreasing_by omega

/-- `SceneManager::FindMaterial(tag, material)`.  Returns the C++ return
value together with the final value of the reference out-parameter
`material`.  Note the source returns `false` only for an *empty* material
list; once the list is non-empty it returns `true` unconditionally — the
`bFound` flag of the scan is never returned. -/
def FindMaterial (mats : List OBJECT_MATERIAL) (tag : String)
    (material : OBJECT_MATERIAL) : Bool × OBJECT_MATERIAL :=
  if mats.length = 0 then (false, material)
  else (true, findMaterialLoop mats tag material 0)

/-- `glm::radians`: degrees-to-radians conversion. -/
noncomputable def glm_radians (degrees : ℝ) : ℝ := degrees * (Real.pi / 180)

/-- `glm::normalize` on a `vec3`: divide by the Euclidean length. -/
noncomputable def glm_normalize (v : Vec3) : Vec3 :=
  let len := Real.sqrt (v.x * v.x + v.y * v.y + v.z * v.z)
  ⟨v.x / len, v.y / len, v.z / len⟩

/-- `glm::scale(v)` (gtx/transform, applied to the identity): the diagonal
scaling matrix. -/
noncomputable def glm_scale (v : Vec3) : Mat4 :=
  !![v.x, 0, 0, 0;
     0, v.y, 0, 0;
     0, 0, v.z, 0;
     0, 0, 0, 1]

/-- `glm::translate(v)` (gtx/transform, applied to the identity): identity
with the translation in the last column. -/
noncomputable def glm_translate (v : Vec3) : Mat4 :=
  !![1, 0, 0, v.x;
     0, 1, 0, v.y;
     0, 0, 1, v.z;
     0, 0, 0, 1]

/-- `glm::rotate(angle, v)` (gtx/transform, applied to the identity): the
axis–angle (Rodrigues) rotation matrix exactly as glm builds it — the axis is
normalised, `temp = (1 - cos angle) * axis`, and the 3x3 block is filled
column by column; translated here to (row, column) indexing. -/
noncomputable def glm_rotate (angle : ℝ) (v : Vec3) : Mat4 :=
  let c := Real.cos angle
  let s := Real.sin angle
  let axis := glm_normalize v
  let temp : Vec3 := ⟨(1 - c) * axis.x, (1 - c) * axis.y, (1 - c) * axis.z⟩
  !![c + temp.x * axis.x, temp.y * axis.x - s * axis.z, temp.z * axis.x + s * axis.y, 0;
     temp.x * axis.y + s * axis.z, c + temp.y * axis.y, temp.z * axis.y - s * axis.x, 0;
     temp.x * axis.z - s * axis.y, temp.y * axis.z + s * axis.x, c + temp.z * axis.z, 0;
     0, 0, 0, 1]

/-- The rotation matrix about the unit X axis by angle `a` (radians), as the
spec describes the X-rotation factor of the model matrix. -/
noncomputable def rotationAboutX (a : ℝ) : Mat4 :=
  !![1, 0, 0, 0;
     0, Real.cos a, -Real.sin a, 0;
     0, Real.sin a, Real.cos a, 0;
     0, 0, 0, 1]

/-- The rotation matrix about the unit Y axis by angle `a` (radians). -/
noncomputable def rotationAboutY (a : ℝ) : Mat4 :=
  !![Real.cos a, 0, Real.sin a, 0;
     0, 1, 0, 0;
     -Real.sin a, 0, Real.cos a, 0;
     0, 0, 0, 1]

/-- The rotation matrix about the unit Z axis by angle `a` (radians). -/
noncomputable def rotationAboutZ (a : ℝ) : Mat4 :=
  !![Real.cos a, -Real.sin a, 0, 0;
     Real.sin a, Real.cos a, 0, 0;
     0, 0, 1, 0;
     0, 0, 0, 1]

/-- `SceneManager::SetTransformations`: builds scale, per-axis rotation (with
degree-to-radian conversion) and translation matrices, composes them as
`translation * rotationZ * rotationY * rotationX * scale`, and uploads the
result to the `"model"` uniform when the shader-manager pointer is non-null. -/
noncomputable def SetTransformations (scaleXYZ : Vec3)
    (XrotationDegrees YrotationDegrees ZrotationDegrees : ℝ)
    (positionXYZ : Vec3) (st : State) : State :=
  let scale := glm_scale scaleXYZ
  let rotationX := glm_rotate (glm_radians XrotationDegrees) ⟨1, 0, 0⟩
  let rotationY := glm_rotate (glm_radians YrotationDegrees) ⟨0, 1, 0⟩
  let rotationZ := glm_rotate (glm_radians ZrotationDegrees) ⟨0, 0, 1⟩
  let translation := glm_translate positionXYZ
  let modelView := translation * rotationZ * rotationY * rotationX * scale
  if st.sm.hasShaderManager then setMat4Value g_ModelName modelView st else st

/-- `SceneManager::SetShaderColor`: disables texturing and uploads the color
(when the shader-manager pointer is non-null). -/
def SetShaderColor (redColorValue greenColorValue blueColorValue alphaValue : ℝ)
    (st : State) : State :=
  if st.sm.hasShaderManager then
    setVec4Value g_ColorValueName redColorValue greenColorValue blueColorValue
      alphaValue (setIntValue g_UseTextureName 0 st)
  else st

/-- `SceneManager::SetShaderTexture`: when the shader-manager pointer is
non-null, sets `bUseTexture` to `true` (`setIntValue` with a C++ `bool`,
i.e. `1`) and uploads `FindTextureSlot`'s result — `-1` when the tag matches
no loaded texture — as the `objectTexture` sampler. -/
def SetShaderTexture (textureTag : String) (st : State) : State :=
  if st.sm.hasShaderManager then
    let st := setIntValue g_UseTextureName 1 st
    let textureID := FindTextureSlot st.sm textureTag
    setSampler2DValue g_TextureValueName textureID st
  else st

/-- `SceneManager::SetTextureUVScale`. -/
def SetTextureUVScale (u v : ℝ) (st : State) : State :=
  if st.sm.hasShaderManager then setVec2Value "UVscale" u v st else st

/-- `SceneManager::SetShaderMaterial`: when the material list is non-empty,
looks the tag up with `FindMaterial` and, if it reported success, uploads the
resulting material fields.  `junk` models the *uninitialised* local variable
`OBJECT_MATERIAL material;` the source declares — its value is indeterminate
in C++ and is whatever `FindMaterial` left in the out-parameter.  (The source
dereferences `m_pShaderManager` here without a null check.) -/
def SetShaderMaterial (materialTag : String) (junk : OBJECT_MATERIAL)
    (st : State) : State :=
  if st.sm.objectMaterials.length > 0 then
    let r := FindMaterial st.sm.objectMaterials materialTag junk
    if r.1 = true then
      let st := setVec3Value "material.diffuseColor" r.2.diffuseColor st
      let st := setVec3Value "material.specularColor" r.2.specularColor st
      setFloatValue "material.shininess" r.2.shininess st
    else st
  else st

/-- `SceneManager::LoadSceneTextures`: twelve `CreateGLTexture` calls (each
boolean result assigned to `bReturn` and discarded), then `BindGLTextures`. -/
def LoadSceneTextures (stbiLoad : String → Option ImageData)
    (st : State) : Option State := do
  let r ← CreateGLTexture stbiLoad "textures/marble.jpg" "marble" st
  let r ← CreateGLTexture stbiLoad "textures/gold.jpg" "gold" r.2
  let r ← CreateGLTexture stbiLoad "textures/versace.jpg" "versace" r.2
  let r ← CreateGLTexture stbiLoad "textures/blue_glass.jpg" "blue_glass" r.2
  let r ← CreateGLTexture stbiLoad "textures/perfume.jpg" "perfume" r.2
  let r ← CreateGLTexture stbiLoad "textures/gray_felt.jpg" "gray_felt" r.2
  let r ← CreateGLTexture stbiLoad "textures/black_felt.jpg" "black_felt" r.2
  let r ← CreateGLTexture stbiLoad "textures/green_felt.jpg" "green_felt" r.2
  let r ← CreateGLTexture stbiLoad "textures/peach_felt.jpg" "peach_felt" r.2
  let r ← CreateGLTexture stbiLoad "textures/white_leather.jpg" "white_leather" r.2
  let r ← CreateGLTexture stbiLoad "textures/brown_leather.jpg" "brown_leather" r.2
  let r ← CreateGLTexture stbiLoad "textures/chain.jpg" "gold_chain" r.2
  some (BindGLTextures r.2)

/-- `push_back` on `m_objectMaterials`, with its trace event. -/
def pushMaterial (m : OBJECT_MATERIAL) (st : State) : State :=
  { st with
      sm := { st.sm with objectMaterials := st.sm.objectMaterials ++ [m] },
      events := st.events ++ [Event.pushMaterial m.tag] }

/-- `SceneManager::DefineObjectMaterials`: defines and registers the five
material presets, in source order. -/
def DefineObjectMaterials (st : State) : State :=
  let goldMaterial : OBJECT_MATERIAL :=
    { diffuseColor := ⟨0.4, 0.4, 0.4⟩, specularColor := ⟨0.7, 0.7, 0.6⟩,
      shininess := 85.0, tag := "metal" }
  let glassMaterial : OBJECT_MATERIAL :=
    { diffuseColor := ⟨0.5, 0.5, 0.5⟩, specularColor := ⟨1.0, 1.0, 1.0⟩,
      shininess := 95.0, tag := "glass" }
  let marbleMaterial : OBJECT_MATERIAL :=
    { diffuseColor := ⟨0.4, 0.4, 0.4⟩, specularColor := ⟨0.2, 0.2, 0.2⟩,
      shininess := 30.0, tag := "marble" }
  let feltMaterial : OBJECT_MATERIAL :=
    { diffuseColor := ⟨0.1, 0.1, 0.1⟩, specularColor := ⟨0.0, 0.0, 0.0⟩,
      shininess := 1.0, tag := "felt" }
  let leatherMaterial : OBJECT_MATERIAL :=
    { diffuseColor := ⟨0.4, 0.4, 0.4⟩, specularColor := ⟨0.2, 0.2, 0.2⟩,
      shininess := 30.0, tag := "leather" }
  pushMaterial leatherMaterial (pushMaterial feltMaterial (pushMaterial
    marbleMaterial (pushMaterial glassMaterial (pushMaterial goldMaterial st))))

/-- `SceneManager::SetupSceneLights`: uploads the lighting uniforms, in source
order (the directional-light block is commented out in the source; the
shader-manager pointer is dereferenced without a null check). -/
noncomputable def SetupSceneLights (st : State) : State :=
  let st := setBoolValue g_UseLightingName true st
  let st := setVec3Value "pointLights.position" ⟨0.0, 20.0, 0.0⟩ st
  let st := setVec3Value "pointLights[0].ambient" ⟨0.55, 0.5, 0.5⟩ st
  let st := setVec3Value "pointLights[0].diffuse" ⟨0.75, 0.7, 0.7⟩ st
  let st := setVec3Value "pointLights[0].specular" ⟨1.0, 0.9, 0.9⟩ st
  let st := setBoolValue "pointLights[0].bActive" true st
  let st := setVec3Value "spotLight.position" ⟨-18.0, 10.0, 55.0⟩ st
  let st := setVec3Value "spotLight.direction" ⟨1.0, -0.5, -1.0⟩ st
  let st := setVec3Value "spotLight.ambient" ⟨6.0, 6.0, 6.0⟩ st
  let st := setVec3Value "spotLight.diffuse" ⟨15.0, 15.0, 15.0⟩ st
  let st := setVec3Value "spotLight.specular" ⟨10.0, 10.0, 10.0⟩ st
  let st := setFloatValue "spotLight.constant" 1.0 st
  let st := setFloatValue "spotLight.linear" 0.01 st
  let st := setFloatValue "spotLight.quadratic" 0.005 st
  let st := setFloatValue "spotLight.cutOff" (Real.cos (glm_radians 110.0)) st
  let st := setFloatValue "spotLight.outerCutOff" (Real.cos (glm_radians 130.0)) st
  setBoolValue "spotLight.bActive" true st

/-- A `m_basicMeshes->Load...Mesh()` call, recorded in the event trace. -/
def loadMesh (m : MeshKind) (st : State) : State :=
  { st with events := st.events ++ [Event.loadMesh m] }

/-- `SceneManager::PrepareScene`: `LoadSceneTextures`, then
`DefineObjectMaterials`, then `SetupSceneLights`, then the ten basic-mesh
load calls, in source order. -/
noncomputable def PrepareScene (stbiLoad : String → Option ImageData)
    (st : State) : Option State := do
  let st ← LoadSceneTextures stbiLoad st
  let st := DefineObjectMaterials st
  let st := SetupSceneLights st
  let st := loadMesh MeshKind.box st
  let st := loadMesh MeshKind.plane st
  let st := loadMesh MeshKind.cylinder st
  let st := loadMesh MeshKind.cone st
  let st := loadMesh MeshKind.prism st
  let st := loadMesh MeshKind.pyramid4 st
  let st := loadMesh MeshKind.sphere st
  let st := loadMesh MeshKind.taperedCylinder st
  let st := loadMesh MeshKind.torus st
  some (loadMesh MeshKind.hexagon st)

/-- A fresh program state: non-null shader manager, empty texture table and
material list, no uniforms set, a fresh GL context. -/
def initialState : State where
  sm := { hasShaderManager := true, textureIDs := fun _ => { ID := 0, tag := "" },
          loadedTextures := 0, objectMaterials := [] }
  shader := ⟨fun _ => none⟩
  gl := { nextTextureName := 1, deleted := [], activeUnit := 0, binds := [] }
  log := []
  events := []

/-! ## glm rotation about the unit axes -/

/-- Normalising the unit X axis is the identity. -/
lemma glm_normalize_unitX : glm_normalize ⟨1, 0, 0⟩ = ⟨1, 0, 0⟩ := by
  simp [glm_normalize]

/-- Normalising the unit Y axis is the identity. -/
lemma glm_normalize_unitY : glm_normalize ⟨0, 1, 0⟩ = ⟨0, 1, 0⟩ := by
  simp [glm_normalize]

/-- Normalising the unit Z axis is the identity. -/
lemma glm_normalize_unitZ : glm_normalize ⟨0, 0, 1⟩ = ⟨0, 0, 1⟩ := by
  simp [glm_normalize]

/-- glm's axis–angle matrix at the unit X axis is the standard X rotation. -/
lemma glm_rotate_unitX (a : ℝ) : glm_rotate a ⟨1, 0, 0⟩ = rotationAboutX a := by
  rw [glm_rotate, glm_normalize_unitX, rotationAboutX]
  norm_num

/-- glm's axis–angle matrix at the unit Y axis is the standard Y rotation. -/
lemma glm_rotate_unitY (a : ℝ) : glm_rotate a ⟨0, 1, 0⟩ = rotationAboutY a := by
  rw [glm_rotate, glm_normalize_unitY, rotationAboutY]
  norm_num

/-- glm's axis–angle matrix at the unit Z axis is the standard Z rotation. -/
lemma glm_rotate_unitZ (a : ℝ) : glm_rotate a ⟨0, 0, 1⟩ = rotationAboutZ a := by
  rw [glm_rotate, glm_normalize_unitZ, rotationAboutZ]
  norm_num

/-- C2: with a non-null shader manager, `SetTransformations` sets the
`"model"` uniform to exactly
`translation * rotationZ * rotationY * rotationX * scale`, each rotation
matrix built from the corresponding angle converted from degrees to radians
about the respective unit axis. -/
theorem setTransformations_sets_model_matrix (scaleXYZ : Vec3)
    (XrotationDegrees YrotationDegrees ZrotationDegrees : ℝ)
    (positionXYZ : Vec3) (st : State)
    (h : st.sm.hasShaderManager = true) :
    (SetTransformations scaleXYZ XrotationDegrees YrotationDegrees
        ZrotationDegrees positionXYZ st).shader.uniforms g_ModelName =
      some (UniformValue.mat4V
        (glm_translate positionXYZ *
          rotationAboutZ (glm_radians ZrotationDegrees) *
          rotationAboutY (glm_radians YrotationDegrees) *
          rotationAboutX (glm_radians XrotationDegrees) *
          glm_scale scaleXYZ)) := by
  rw [SetTransformations]
  simp only [h, if_true, setMat4Value, setUniform, glm_rotate_unitX,
    glm_rotate_unitY, glm_rotate_unitZ]
  simp [Function.update]

/-- C2 witness: the theorem applied at a concrete input. -/
theorem setTransformations_sets_model_matrix_witness :
    (SetTransformations ⟨1, 2, 3⟩ 30 60 90 ⟨4, 5, 6⟩ initialState).shader.uniforms
        g_ModelName =
      some (UniformValue.mat4V
        (glm_translate ⟨4, 5, 6⟩ * rotationAboutZ (glm_radians 90) *
          rotationAboutY (glm_radians 60) * rotationAboutX (glm_radians 30) *
          glm_scale ⟨1, 2, 3⟩)) :=
  setTransformations_sets_model_matrix ⟨1, 2, 3⟩ 30 60 90 ⟨4, 5, 6⟩
    initialState rfl

/-- C6: `SetTransformations` modifies no field of the `SceneManager` object:
texture table, texture count, material list and the shader-manager pointer
are all exactly as before the call. -/
theorem setTransformations_modifies_no_sm_field (scaleXYZ : Vec3)
    (XrotationDegrees YrotationDegrees ZrotationDegrees : ℝ)
    (positionXYZ : Vec3) (st : State) :
    (SetTransformations scaleXYZ XrotationDegrees YrotationDegrees
        ZrotationDegrees positionXYZ st).sm = st.sm := by
  rw [SetTransformations]
  split <;> rfl

/-! ## Texture lookup (C5, C10) -/

/-- The spec's description of texture lookup: scan the first
`loadedTextures` table entries in registration order and return the index of
the earliest one whose tag equals the query, if any. -/
def firstLoadedMatch (sm : SMFields) (tag : String) : Option ℕ :=
  (List.range sm.loadedTextures).find? fun i => (sm.textureIDs i).tag == tag

/-- The `FindTextureSlot` scan from position `index` is the first match in
the remaining index range. -/
lemma findTextureSlotLoop_eq (table : ℕ → TEXTURE_ID) (n : ℕ) (tag : String) :
    ∀ (fuel index : ℕ), n - index = fuel →
      findTextureSlotLoop table n tag index =
        (match (List.range' index fuel).find?
            (fun i => (table i).tag == tag) with
         | some i => (Int.ofNat i : ℤ)
         | none => -1) := by
  intro fuel
  induction fuel with
  | zero =>
      intro index _
      rw [findTextureSlotLoop]
      have hn : ¬ index < n := by omega
      simp [hn]
  | succ k ih =>
      intro index hfuel
      rw [findTextureSlotLoop]
      have hlt : index < n := by omega
      rw [List.range'_succ]
      by_cases htag : (table index).tag = tag
      · simp [hlt, htag]
      · have hk : n - (index + 1) = k := by omega
        simp [hlt, htag, ih (index + 1) hk]

/-- The `FindTextureID` scan from position `index` returns the stored ID of
the first match in the remaining index range. -/
lemma findTextureIDLoop_eq (table : ℕ → TEXTURE_ID) (n : ℕ) (tag : String) :
    ∀ (fuel index : ℕ), n - index = fuel →
      findTextureIDLoop table n tag index =
        (match (List.range' index fuel).find?
            (fun i => (table i).tag == tag) with
         | some i => (Int.ofNat (table i).ID : ℤ)
         | none => -1) := by
  intro fuel
  induction fuel with
  | zero =>
      intro index _
      rw [findTextureIDLoop]
      have hn : ¬ index < n := by omega
      simp [hn]
  | succ k ih =>
      intro index hfuel
      rw [findTextureIDLoop]
      have hlt : index < n := by omega
      rw [List.range'_succ]
      by_cases htag : (table index).tag = tag
      · simp [hlt, htag]
      · have hk : n - (index + 1) = k := by omega
        simp [hlt, htag, ih (index + 1) hk]

/-- C5: `FindTextureID` and `FindTextureSlot` are linear scans of the first
`m_loadedTextures` table entries in registration order — they return the
stored ID (resp. the index) of the earliest-registered entry whose tag
equals the query, and `-1` when no loaded texture has that tag. -/
theorem findTexture_linear_scan (sm : SMFields) (tag : String) :
    (FindTextureSlot sm tag =
      (match firstLoadedMatch sm tag with
       | some i => (Int.ofNat i : ℤ)
       | none => -1)) ∧
    (FindTextureID sm tag =
      (match firstLoadedMatch sm tag with
       | some i => (Int.ofNat (sm.textureIDs i).ID : ℤ)
       | none => -1)) := by
  have h0 : sm.loadedTextures - 0 = sm.loadedTextures := by omega
  constructor
  · rw [FindTextureSlot,
      findTextureSlotLoop_eq sm.textureIDs sm.loadedTextures tag
        sm.loadedTextures 0 h0]
    rw [firstLoadedMatch, List.range_eq_range']
  · rw [FindTextureID,
      findTextureIDLoop_eq sm.textureIDs sm.loadedTextures tag
        sm.loadedTextures 0 h0]
    rw [firstLoadedMatch, List.range_eq_range']

/-- When no loaded entry has the queried tag, the slot scan yields `-1`. -/
lemma findTextureSlot_of_no_match (sm : SMFields) (tag : String)
    (h : ∀ i, i < sm.loadedTextures → (sm.textureIDs i).tag ≠ tag) :
    FindTextureSlot sm tag = -1 := by
  rw [FindTextureSlot, findTextureSlotLoop_eq sm.textureIDs
    sm.loadedTextures tag sm.loadedTextures 0 (by omega)]
  have hfind : (List.range' 0 sm.loadedTextures).find?
      (fun i => (sm.textureIDs i).tag == tag) = none := by
    rw [List.find?_eq_none]
    intro i hi
    rw [← List.range_eq_range', List.mem_range] at hi
    simpa using h i hi
  rw [hfind]

/-- C10: with a non-null shader manager and a tag matching no loaded
texture, `SetShaderTexture` still enables texturing and passes the
not-found sentinel through: `bUseTexture` is set to true (the C++ `bool`
argument of `setIntValue`, i.e. `1`) and the `objectTexture` sampler is set
to `-1`. -/
theorem setShaderTexture_no_match (textureTag : String) (st : State)
    (hsh : st.sm.hasShaderManager = true)
    (h : ∀ i, i < st.sm.loadedTextures →
      (st.sm.textureIDs i).tag ≠ textureTag) :
    (SetShaderTexture textureTag st).shader.uniforms g_UseTextureName =
        some (UniformValue.intV 1) ∧
    (SetShaderTexture textureTag st).shader.uniforms g_TextureValueName =
        some (UniformValue.sampler2DV (-1)) := by
  rw [SetShaderTexture]
  simp only [hsh, if_true]
  rw [setIntValue, setSampler2DValue]
  have hsm : (setUniform g_UseTextureName (UniformValue.intV 1) st).sm = st.sm :=
    rfl
  rw [hsm, findTextureSlot_of_no_match _ _ h]
  simp [setUniform, Function.update, g_TextureValueName, g_UseTextureName]

/-- C10 witness: the theorem applied to the fresh state (no loaded
textures, non-null shader manager) and the tag `"marble"`. -/
theorem setShaderTexture_no_match_witness :
    (SetShaderTexture "marble" initialState).shader.uniforms g_UseTextureName =
        some (UniformValue.intV 1) ∧
    (SetShaderTexture "marble" initialState).shader.uniforms g_TextureValueName =
        some (UniformValue.sampler2DV (-1)) :=
  setShaderTexture_no_match "marble" initialState rfl
    (by intro i hi; simp [initialState] at hi)

/-! ## Texture registration (C3, C4, C9) -/

/-- On a failed decode, the exact result of `CreateGLTexture`: the call
event, the "Could not load image" log line, result `false`, and nothing
else. -/
lemma createGLTexture_decodeFail_eq (stbiLoad : String → Option ImageData)
    (filename tag : String) (st : State)
    (hfail : stbiLoad filename = none) :
    CreateGLTexture stbiLoad filename tag st = some (false,
      { st with
          events := st.events ++ [Event.createTexture filename tag],
          log := st.log ++ ["Could not load image:" ++ filename] }) := by
  rw [CreateGLTexture, hfail]
  rfl

/-- C3: when image decoding fails, `CreateGLTexture` logs the
"Could not load image" line and returns `false`, and the texture
registration table is untouched — no `m_textureIDs` entry is written,
`m_loadedTextures` keeps its prior value, and nothing but the log line and
the boolean result comes out of the call (GL context and shader uniforms
included). -/
theorem createGLTexture_decode_failure (stbiLoad : String → Option ImageData)
    (filename tag : String) (st : State)
    (hfail : stbiLoad filename = none) :
    ∃ st', CreateGLTexture stbiLoad filename tag st = some (false, st') ∧
      st'.sm.textureIDs = st.sm.textureIDs ∧
      st'.sm.loadedTextures = st.sm.loadedTextures ∧
      st'.sm = st.sm ∧
      st'.gl = st.gl ∧
      st'.shader = st.shader ∧
      st'.log = st.log ++ ["Could not load image:" ++ filename] ∧
      st'.events = st.events ++ [Event.createTexture filename tag] :=
  ⟨_, createGLTexture_decodeFail_eq stbiLoad filename tag st hfail,
    rfl, rfl, rfl, rfl, rfl, rfl, rfl⟩

/-- C3 witness: a decoder that fails on every file, applied to the fresh
state. -/
theorem createGLTexture_decode_failure_witness :
    ∃ st', CreateGLTexture (fun _ => none) "textures/marble.jpg" "marble"
        initialState = some (false, st') ∧
      st'.sm.textureIDs = initialState.sm.textureIDs ∧
      st'.sm.loadedTextures = initialState.sm.loadedTextures ∧
      st'.sm = initialState.sm ∧
      st'.gl = initialState.gl ∧
      st'.shader = initialState.shader ∧
      st'.log = initialState.log ++
        ["Could not load image:" ++ "textures/marble.jpg"] ∧
      st'.events = initialState.events ++
        [Event.createTexture "textures/marble.jpg" "marble"] :=
  createGLTexture_decode_failure (fun _ => none) "textures/marble.jpg"
    "marble" initialState rfl

/-- On a decode with 3 or 4 channels and a free slot, the exact result state
of `CreateGLTexture`: call event, success log line, one generated texture
name (bound then unbound), and the new table entry at index
`m_loadedTextures`. -/
lemma createGLTexture_success_eq (stbiLoad : String → Option ImageData)
    (filename tag : String) (st : State) (img : ImageData)
    (himg : stbiLoad filename = some img)
    (hch : img.channels = 3 ∨ img.channels = 4)
    (hcap : st.sm.loadedTextures < textureTableCapacity) :
    CreateGLTexture stbiLoad filename tag st = some (true,
      { st with
          sm := { st.sm with
            textureIDs := Function.update st.sm.textureIDs
              st.sm.loadedTextures
              { ID := st.gl.nextTextureName, tag := tag },
            loadedTextures := st.sm.loadedTextures + 1 },
          gl := { st.gl with
            nextTextureName := st.gl.nextTextureName + 1,
            binds := st.gl.binds ++ [(st.gl.activeUnit, st.gl.nextTextureName)]
              ++ [(st.gl.activeUnit, 0)] },
          log := st.log ++ ["Successfully loaded image:" ++ filename ++
            ", width:" ++ toString img.width ++ ", height:" ++
            toString img.height ++ ", channels:" ++ toString img.channels],
          events := st.events ++ [Event.createTexture filename tag] }) := by
  rw [CreateGLTexture, himg]
  simp only [logLine, glGenTextures, glBindTexture, writeTextureID, hch,
    hcap, if_true]

/-- C4: when decoding succeeds with 3 or 4 color channels (and the table has
a free slot), `CreateGLTexture` appends exactly one entry: the freshly
generated texture name and the passed tag are stored at index
`m_loadedTextures`, the count grows by exactly one, every other slot is
unchanged, and the call returns `true`. -/
theorem createGLTexture_success_appends (stbiLoad : String → Option ImageData)
    (filename tag : String) (st : State) (img : ImageData)
    (himg : stbiLoad filename = some img)
    (hch : img.channels = 3 ∨ img.channels = 4)
    (hcap : st.sm.loadedTextures < textureTableCapacity) :
    ∃ st', CreateGLTexture stbiLoad filename tag st = some (true, st') ∧
      (st'.sm.textureIDs st.sm.loadedTextures).ID = st.gl.nextTextureName ∧
      (st'.sm.textureIDs st.sm.loadedTextures).tag = tag ∧
      st'.sm.loadedTextures = st.sm.loadedTextures + 1 ∧
      (∀ i, i ≠ st.sm.loadedTextures →
        st'.sm.textureIDs i = st.sm.textureIDs i) := by
  refine ⟨_, createGLTexture_success_eq stbiLoad filename tag st img himg
    hch hcap, ?_, ?_, rfl, ?_⟩
  · simp [Function.update]
  · simp [Function.update]
  · intro i hi
    simp [Function.update, hi]

/-- C4 witness: a decoder returning a 3-channel image, applied to the fresh
state. -/
theorem createGLTexture_success_appends_witness :
    ∃ st', CreateGLTexture (fun _ => some ⟨256, 256, 3⟩) "textures/gold.jpg"
        "gold" initialState = some (true, st') ∧
      (st'.sm.textureIDs initialState.sm.loadedTextures).ID =
        initialState.gl.nextTextureName ∧
      (st'.sm.textureIDs initialState.sm.loadedTextures).tag = "gold" ∧
      st'.sm.loadedTextures = initialState.sm.loadedTextures + 1 ∧
      (∀ i, i ≠ initialState.sm.loadedTextures →
        st'.sm.textureIDs i = initialState.sm.textureIDs i) :=
  createGLTexture_success_appends (fun _ => some ⟨256, 256, 3⟩)
    "textures/gold.jpg" "gold" initialState ⟨256, 256, 3⟩ rfl (Or.inl rfl)
    (by norm_num [initialState, textureTableCapacity])

/-- C9: `CreateGLTexture` performs no capacity check before registering: on
a successful load it writes `m_textureIDs[m_loadedTextures]`
unconditionally, so the write is in bounds exactly when fewer than the
table's 16 slots are filled — with a free slot the registration succeeds,
and at or beyond capacity the same write runs past the end of the table
(the `none` result, i.e. undefined behaviour). -/
theorem createGLTexture_no_capacity_check (stbiLoad : String → Option ImageData)
    (filename tag : String) (st : State) (img : ImageData)
    (himg : stbiLoad filename = some img)
    (hch : img.channels = 3 ∨ img.channels = 4) :
    (st.sm.loadedTextures < textureTableCapacity →
      ∃ st', CreateGLTexture stbiLoad filename tag st = some (true, st') ∧
        st'.sm.textureIDs st.sm.loadedTextures =
          { ID := st.gl.nextTextureName, tag := tag }) ∧
    (textureTableCapacity ≤ st.sm.loadedTextures →
      CreateGLTexture stbiLoad filename tag st = none) := by
  constructor
  · intro hcap
    refine ⟨_, createGLTexture_success_eq stbiLoad filename tag st img himg
      hch hcap, ?_⟩
    simp [Function.update]
  · intro hcap
    have hno : ¬ st.sm.loadedTextures < textureTableCapacity := by omega
    rw [CreateGLTexture, himg]
    simp [writeTextureID, logLine, glGenTextures, glBindTexture, hno, hch]

/-- C9 witness: a 4-channel decode against a full table (16 registered
textures) runs past the end; the same decode against the fresh table
registers in slot 0. -/
theorem createGLTexture_no_capacity_check_witness :
    (CreateGLTexture (fun _ => some ⟨64, 64, 4⟩) "textures/chain.jpg"
      "gold_chain"
      { initialState with sm := { initialState.sm with loadedTextures := 16 } }
      = none) ∧
    (∃ st', CreateGLTexture (fun _ => some ⟨64, 64, 4⟩) "textures/chain.jpg"
        "gold_chain" initialState = some (true, st') ∧
      st'.sm.textureIDs 0 = { ID := 1, tag := "gold_chain" }) := by
  constructor
  · exact (createGLTexture_no_capacity_check (fun _ => some ⟨64, 64, 4⟩)
      "textures/chain.jpg" "gold_chain"
      { initialState with sm := { initialState.sm with loadedTextures := 16 } }
      ⟨64, 64, 4⟩ rfl (Or.inr rfl)).2
      (by norm_num [initialState, textureTableCapacity])
  · exact (createGLTexture_no_capacity_check (fun _ => some ⟨64, 64, 4⟩)
      "textures/chain.jpg" "gold_chain" initialState
      ⟨64, 64, 4⟩ rfl (Or.inr rfl)).1
      (by norm_num [initialState, textureTableCapacity])

/-! ## DestroyGLTextures (C8) -/

/-- Invariant of the `DestroyGLTextures` loop from position `i`: it performs
one `glGenTextures` per remaining slot, deletes nothing, and rewrites each
remaining slot's ID to the next fresh name while keeping its tag. -/
lemma destroyGLTexturesLoop_eq (n : ℕ) (hn : n ≤ textureTableCapacity) :
    ∀ (fuel i : ℕ), n - i = fuel →
      ∀ (table : ℕ → TEXTURE_ID) (gl : GLState),
      ∃ table' gl',
        destroyGLTexturesLoop n i table gl = some (table', gl') ∧
        gl'.nextTextureName = gl.nextTextureName + (n - i) ∧
        gl'.deleted = gl.deleted ∧
        gl'.activeUnit = gl.activeUnit ∧
        gl'.binds = gl.binds ∧
        (∀ j, j < i ∨ n ≤ j → table' j = table j) ∧
        (∀ j, i ≤ j → j < n →
          table' j = { ID := gl.nextTextureName + (j - i),
                       tag := (table j).tag }) := by
  intro fuel
  induction fuel with
  | zero =>
      intro i hfuel table gl
      have hge : ¬ i < n := by omega
      rw [destroyGLTexturesLoop]
      simp only [hge, if_false]
      exact ⟨table, gl, rfl, by omega, rfl, rfl, rfl,
        fun j _ => rfl, fun j hij hjn => by omega⟩
  | succ k ih =>
      intro i hfuel table gl
      have hlt : i < n := by omega
      have hcap : i < textureTableCapacity := by omega
      rw [destroyGLTexturesLoop]
      simp only [hlt, if_true, glGenTextures, writeTextureID, hcap]
      obtain ⟨table', gl', heq, hnext, hdel, hau, hbinds, huntouched, hwritten⟩ :=
        ih (i + 1) (by omega)
          (Function.update table i
            { ID := gl.nextTextureName, tag := (table i).tag })
          { gl with nextTextureName := gl.nextTextureName + 1 }
      refine ⟨table', gl', heq, by simp at hnext; omega, hdel, hau, hbinds,
        ?_, ?_⟩
      · intro j hj
        rw [huntouched j (by omega), Function.update_noteq (by omega)]
      · intro j hij hjn
        rcases Nat.eq_or_lt_of_le hij with hji | hji
        · rw [huntouched j (by omega), ← hji, Function.update_same]
          simp
        · rw [hwritten j (by omega) hjn, Function.update_noteq (by omega)]
          simp
          omega

/-- C8: `DestroyGLTextures` does not delete or free the loaded textures:
for each of the first `m_loadedTextures` slots it calls `glGenTextures`,
overwriting the stored ID with a freshly generated texture name, never
calling `glDeleteTextures`, and it leaves `m_loadedTextures`, every stored
tag, and every slot beyond the loaded ones unchanged. -/
theorem destroyGLTextures_generates_instead_of_deleting (st : State)
    (h : st.sm.loadedTextures ≤ textureTableCapacity) :
    ∃ st', DestroyGLTextures st = some st' ∧
      st'.gl.deleted = st.gl.deleted ∧
      st'.sm.loadedTextures = st.sm.loadedTextures ∧
      (∀ i, (st'.sm.textureIDs i).tag = (st.sm.textureIDs i).tag) ∧
      (∀ i, i < st.sm.loadedTextures →
        (st'.sm.textureIDs i).ID = st.gl.nextTextureName + i) ∧
      (∀ i, st.sm.loadedTextures ≤ i →
        st'.sm.textureIDs i = st.sm.textureIDs i) ∧
      st'.gl.nextTextureName =
        st.gl.nextTextureName + st.sm.loadedTextures := by
  obtain ⟨table', gl', heq, hnext, hdel, _, _, huntouched, hwritten⟩ :=
    destroyGLTexturesLoop_eq st.sm.loadedTextures h
      (st.sm.loadedTextures - 0) 0 rfl st.sm.textureIDs st.gl
  refine ⟨{ st with sm := { st.sm with textureIDs := table' }, gl := gl' },
    ?_, hdel, rfl, ?_, ?_, ?_, by simpa using hnext⟩
  · rw [DestroyGLTextures, heq]
  · intro i
    dsimp only
    by_cases hi : i < st.sm.loadedTextures
    · rw [hwritten i (by omega) hi]
    · rw [huntouched i (by omega)]
  · intro i hi
    dsimp only
    rw [hwritten i (by omega) hi]
    simp
  · intro i hi
    dsimp only
    exact huntouched i (by omega)

/-- C8 witness: the theorem applied to a state with two registered
textures. -/
theorem destroyGLTextures_generates_instead_of_deleting_witness :
    ∃ st', DestroyGLTextures
        { initialState with sm := { initialState.sm with
            loadedTextures := 2,
            textureIDs := fun i => { ID := 40 + i, tag := "t" } } } =
        some st' ∧
      st'.gl.deleted = initialState.gl.deleted ∧
      st'.sm.loadedTextures = 2 ∧
      (∀ i, (st'.sm.textureIDs i).tag =
        ((fun i => ({ ID := 40 + i, tag := "t" } : TEXTURE_ID)) i).tag) ∧
      (∀ i, i < 2 → (st'.sm.textureIDs i).ID =
        initialState.gl.nextTextureName + i) ∧
      (∀ i, 2 ≤ i → st'.sm.textureIDs i =
        (fun i => ({ ID := 40 + i, tag := "t" } : TEXTURE_ID)) i) ∧
      st'.gl.nextTextureName = initialState.gl.nextTextureName + 2 :=
  destroyGLTextures_generates_instead_of_deleting
    { initialState with sm := { initialState.sm with
        loadedTextures := 2,
        textureIDs := fun i => { ID := 40 + i, tag := "t" } } }
    (by norm_num [initialState, textureTableCapacity])

/-! ## PrepareScene (C7) -/

/-- The texture-creation events of `LoadSceneTextures`, in source order. -/
def sceneTextureEvents : List Event :=
  [Event.createTexture "textures/marble.jpg" "marble",
   Event.createTexture "textures/gold.jpg" "gold",
   Event.createTexture "textures/versace.jpg" "versace",
   Event.createTexture "textures/blue_glass.jpg" "blue_glass",
   Event.createTexture "textures/perfume.jpg" "perfume",
   Event.createTexture "textures/gray_felt.jpg" "gray_felt",
   Event.createTexture "textures/black_felt.jpg" "black_felt",
   Event.createTexture "textures/green_felt.jpg" "green_felt",
   Event.createTexture "textures/peach_felt.jpg" "peach_felt",
   Event.createTexture "textures/white_leather.jpg" "white_leather",
   Event.createTexture "textures/brown_leather.jpg" "brown_leather",
   Event.createTexture "textures/chain.jpg" "gold_chain"]

/-- The material-registration events of `DefineObjectMaterials`. -/
def sceneMaterialEvents : List Event :=
  [Event.pushMaterial "metal", Event.pushMaterial "glass",
   Event.pushMaterial "marble", Event.pushMaterial "felt",
   Event.pushMaterial "leather"]

/-- The uniform-upload events of `SetupSceneLights`, in source order. -/
def sceneLightEvents : List Event :=
  [Event.setUniform "bUseLighting",
   Event.setUniform "pointLights.position",
   Event.setUniform "pointLights[0].ambient",
   Event.setUniform "pointLights[0].diffuse",
   Event.setUniform "pointLights[0].specular",
   Event.setUniform "pointLights[0].bActive",
   Event.setUniform "spotLight.position",
   Event.setUniform "spotLight.direction",
   Event.setUniform "spotLight.ambient",
   Event.setUniform "spotLight.diffuse",
   Event.setUniform "spotLight.specular",
   Event.setUniform "spotLight.constant",
   Event.setUniform "spotLight.linear",
   Event.setUniform "spotLight.quadratic",
   Event.setUniform "spotLight.cutOff",
   Event.setUniform "spotLight.outerCutOff",
   Event.setUniform "spotLight.bActive"]

/-- The ten basic-mesh load events of `PrepareScene`, in source order. -/
def sceneMeshLoadEvents : List Event :=
  [Event.loadMesh MeshKind.box, Event.loadMesh MeshKind.plane,
   Event.loadMesh MeshKind.cylinder, Event.loadMesh MeshKind.cone,
   Event.loadMesh MeshKind.prism, Event.loadMesh MeshKind.pyramid4,
   Event.loadMesh MeshKind.sphere, Event.loadMesh MeshKind.taperedCylinder,
   Event.loadMesh MeshKind.torus, Event.loadMesh MeshKind.hexagon]

/-- On a decode whose channel count is neither 3 nor 4, the exact result of
`CreateGLTexture`: call event, success and "Not implemented" log lines, one
generated and bound texture name, no table change, result `false`. -/
lemma createGLTexture_badChannels_eq (stbiLoad : String → Option ImageData)
    (filename tag : String) (st : State) (img : ImageData)
    (himg : stbiLoad filename = some img)
    (hch : ¬ (img.channels = 3 ∨ img.channels = 4)) :
    CreateGLTexture stbiLoad filename tag st = some (false,
      { st with
          gl := { st.gl with
            nextTextureName := st.gl.nextTextureName + 1,
            binds := st.gl.binds ++
              [(st.gl.activeUnit, st.gl.nextTextureName)] },
          log := st.log ++ ["Successfully loaded image:" ++ filename ++
              ", width:" ++ toString img.width ++ ", height:" ++
              toString img.height ++ ", channels:" ++ toString img.channels]
            ++ ["Not implemented to handle image with " ++
              toString img.channels ++ " channels"],
          events := st.events ++ [Event.createTexture filename tag] }) := by
  rw [CreateGLTexture, himg]
  simp only [logLine, glGenTextures, glBindTexture, hch, if_false]

/-- Every `CreateGLTexture` call with a free table slot returns normally,
appends exactly its call event, and grows the texture count by at most
one. -/
lemma createGLTexture_step (stbiLoad : String → Option ImageData)
    (filename tag : String) (st : State)
    (hcap : st.sm.loadedTextures < textureTableCapacity) :
    ∃ b st', CreateGLTexture stbiLoad filename tag st = some (b, st') ∧
      st'.events = st.events ++ [Event.createTexture filename tag] ∧
      st'.sm.loadedTextures ≤ st.sm.loadedTextures + 1 := by
  cases hdec : stbiLoad filename with
  | none =>
      exact ⟨false, _, createGLTexture_decodeFail_eq stbiLoad filename tag
        st hdec, rfl, by simp⟩
  | some img =>
      by_cases hch : img.channels = 3 ∨ img.channels = 4
      · exact ⟨true, _, createGLTexture_success_eq stbiLoad filename tag st
          img hdec hch hcap, rfl, by simp⟩
      · exact ⟨false, _, createGLTexture_badChannels_eq stbiLoad filename
          tag st img hdec hch, rfl, by simp⟩

/-- `LoadSceneTextures` with at least 12 free slots returns normally and
appends exactly the twelve texture-creation events. -/
lemma loadSceneTextures_events (stbiLoad : String → Option ImageData)
    (st : State)
    (h : st.sm.loadedTextures + 12 ≤ textureTableCapacity) :
    ∃ st', LoadSceneTextures stbiLoad st = some st' ∧
      st'.events = st.events ++ sceneTextureEvents := by
  obtain ⟨b1, s1, h1, e1, l1⟩ := createGLTexture_step stbiLoad
    "textures/marble.jpg" "marble" st (by omega)
  obtain ⟨b2, s2, h2, e2, l2⟩ := createGLTexture_step stbiLoad
    "textures/gold.jpg" "gold" s1 (by omega)
  obtain ⟨b3, s3, h3, e3, l3⟩ := createGLTexture_step stbiLoad
    "textures/versace.jpg" "versace" s2 (by omega)
  obtain ⟨b4, s4, h4, e4, l4⟩ := createGLTexture_step stbiLoad
    "textures/blue_glass.jpg" "blue_glass" s3 (by omega)
  obtain ⟨b5, s5, h5, e5, l5⟩ := createGLTexture_step stbiLoad
    "textures/perfume.jpg" "perfume" s4 (by omega)
  obtain ⟨b6, s6, h6, e6, l6⟩ := createGLTexture_step stbiLoad
    "textures/gray_felt.jpg" "gray_felt" s5 (by omega)
  obtain ⟨b7, s7, h7, e7, l7⟩ := createGLTexture_step stbiLoad
    "textures/black_felt.jpg" "black_felt" s6 (by omega)
  obtain ⟨b8, s8, h8, e8, l8⟩ := createGLTexture_step stbiLoad
    "textures/green_felt.jpg" "green_felt" s7 (by omega)
  obtain ⟨b9, s9, h9, e9, l9⟩ := createGLTexture_step stbiLoad
    "textures/peach_felt.jpg" "peach_felt" s8 (by omega)
  obtain ⟨b10, s10, h10, e10, l10⟩ := createGLTexture_step stbiLoad
    "textures/white_leather.jpg" "white_leather" s9 (by omega)
  obtain ⟨b11, s11, h11, e11, l11⟩ := createGLTexture_step stbiLoad
    "textures/brown_leather.jpg" "brown_leather" s10 (by omega)
  obtain ⟨b12, s12, h12, e12, l12⟩ := createGLTexture_step stbiLoad
    "textures/chain.jpg" "gold_chain" s11 (by omega)
  refine ⟨BindGLTextures s12, ?_, ?_⟩
  · rw [LoadSceneTextures]
    rw [h1, Option.bind_eq_bind, Option.some_bind, h2, Option.some_bind,
      h3, Option.some_bind, h4, Option.some_bind, h5, Option.some_bind,
      h6, Option.some_bind, h7, Option.some_bind, h8, Option.some_bind,
      h9, Option.some_bind, h10, Option.some_bind, h11, Option.some_bind,
      h12, Option.some_bind]
  · have : (BindGLTextures s12).events = s12.events := rfl
    rw [this, e12, e11, e10, e9, e8, e7, e6, e5, e4, e3, e2, e1,
      sceneTextureEvents]
    simp [List.append_assoc]

/-- C7: `PrepareScene` loads exactly one instance of each of the ten basic
meshes, each via a single load call, and only after loading the scene
textures, defining the object materials and setting up the scene lights, in
that order. -/
theorem prepareScene_loads_each_mesh_once_after_setup
    (stbiLoad : String → Option ImageData) (st : State)
    (h : st.sm.loadedTextures + 12 ≤ textureTableCapacity) :
    ∃ st', PrepareScene stbiLoad st = some st' ∧
      st'.events = st.events ++ sceneTextureEvents ++ sceneMaterialEvents
        ++ sceneLightEvents ++ sceneMeshLoadEvents ∧
      (∀ m : MeshKind,
        sceneMeshLoadEvents.count (Event.loadMesh m) = 1) ∧
      (∀ m : MeshKind, Event.loadMesh m ∉
        sceneTextureEvents ++ sceneMaterialEvents ++ sceneLightEvents) := by
  obtain ⟨s1, h1, e1⟩ := loadSceneTextures_events stbiLoad st h
  refine ⟨loadMesh MeshKind.hexagon (loadMesh MeshKind.torus (loadMesh
      MeshKind.taperedCylinder (loadMesh MeshKind.sphere (loadMesh
      MeshKind.pyramid4 (loadMesh MeshKind.prism (loadMesh MeshKind.cone
      (loadMesh MeshKind.cylinder (loadMesh MeshKind.plane (loadMesh
      MeshKind.box (SetupSceneLights (DefineObjectMaterials s1))))))))))),
    ?_, ?_, by decide, by decide⟩
  · rw [PrepareScene, h1, Option.bind_eq_bind, Option.some_bind]
  · simp only [loadMesh, SetupSceneLights, DefineObjectMaterials,
      pushMaterial, setBoolValue, setVec3Value, setFloatValue, setUniform,
      e1, sceneTextureEvents, sceneMaterialEvents, sceneLightEvents,
      sceneMeshLoadEvents, g_UseLightingName]
    simp [List.append_assoc]

/-- C7 witness: the theorem applied to the fresh state with an
always-failing decoder. -/
theorem prepareScene_loads_each_mesh_once_after_setup_witness :
    ∃ st', PrepareScene (fun _ => none) initialState = some st' ∧
      st'.events = initialState.events ++ sceneTextureEvents
        ++ sceneMaterialEvents ++ sceneLightEvents ++ sceneMeshLoadEvents ∧
      (∀ m : MeshKind,
        sceneMeshLoadEvents.count (Event.loadMesh m) = 1) ∧
      (∀ m : MeshKind, Event.loadMesh m ∉
        sceneTextureEvents ++ sceneMaterialEvents ++ sceneLightEvents) :=
  prepareScene_loads_each_mesh_once_after_setup (fun _ => none) initialState
    (by norm_num [initialState, textureTableCapacity])

/-! ## SetShaderMaterial on a failed lookup (C1) -/

/-- A stand-in for the *uninitialised* local `OBJECT_MATERIAL material;`
declared by `SetShaderMaterial`: its C++ value is indeterminate, so any
concrete values may sit in it; these are arbitrary. -/
def junkMaterial : OBJECT_MATERIAL :=
  { diffuseColor := ⟨7, 8, 9⟩, specularColor := ⟨10, 11, 12⟩,
    shininess := 13, tag := "junk" }

/-- C1 refutation (code bug): after `DefineObjectMaterials`, the tag
`"wood"` matches no defined material, yet `SetShaderMaterial "wood"` does
not leave the shader's material uniforms unchanged.  `FindMaterial` returns
`true` whenever the material list is non-empty — the scan's `bFound` flag is
never returned — so `SetShaderMaterial` uploads the indeterminate local
material: all three material uniforms go from unset to the junk values. -/
theorem setShaderMaterial_failed_lookup_writes_uniforms :
    (∀ m ∈ (DefineObjectMaterials initialState).sm.objectMaterials,
      m.tag ≠ "wood") ∧
    (DefineObjectMaterials initialState).shader.uniforms
      "material.diffuseColor" = none ∧
    (DefineObjectMaterials initialState).shader.uniforms
      "material.specularColor" = none ∧
    (DefineObjectMaterials initialState).shader.uniforms
      "material.shininess" = none ∧
    (SetShaderMaterial "wood" junkMaterial
        (DefineObjectMaterials initialState)).shader.uniforms
      "material.diffuseColor" =
      some (UniformValue.vec3V ⟨7, 8, 9⟩) ∧
    (SetShaderMaterial "wood" junkMaterial
        (DefineObjectMaterials initialState)).shader.uniforms
      "material.specularColor" =
      some (UniformValue.vec3V ⟨10, 11, 12⟩) ∧
    (SetShaderMaterial "wood" junkMaterial
        (DefineObjectMaterials initialState)).shader.uniforms
      "material.shininess" =
      some (UniformValue.floatV 13) := by
  refine ⟨?_, rfl, rfl, rfl, ?_, ?_, ?_⟩
  · simp [DefineObjectMaterials, pushMaterial, initialState]
  all_goals
    simp [SetShaderMaterial, FindMaterial, findMaterialLoop,
      DefineObjectMaterials, pushMaterial, initialState, junkMaterial,
      setVec3Value, setFloatValue, setUniform, Function.update,
      List.getElem_cons_zero, List.getElem_cons_succ]

end SceneMgr
